import Mathlib

/-!
Shallow embedding of the `pygame-multiplayer` core:
`src/pygame_multiplayer/commands/commands.py` (the command model) and
`src/pygame_multiplayer/network/server.py` (the server transport).

Python values that travel through `json.dumps`/`json.loads` are modelled by the
inductive `JSON` below (numbers as integers; the claims under study involve
integer flags and generic JSON payloads only).  A wire string is identified
with its parse result: `none` models text that is not valid JSON, `some v`
models any text that `json.loads` parses to `v`.  `json.dumps`/`json.loads`
are the Python standard library's inverse pair; they are external to the
repository and modelled by this identification.

Python exceptions are modelled by the `PyErr` type; fallible operations return
`Except PyErr α`.
-/

namespace PygameMP

/-- A JSON value as produced by `json.loads` / consumed by `json.dumps`.
`JSON.null` also models the Python value `None`. -/
inductive JSON where
  | null : JSON
  | bool : Bool → JSON
  | num : Int → JSON
  | str : String → JSON
  | arr : List JSON → JSON
  | obj : List (String × JSON) → JSON

/-- A Python exception value.  `connectionError` carries the message string of
the raised `ConnectionError`; `typeError` the message of a `TypeError`. -/
inductive PyErr where
  | jsonDecodeError : PyErr
  | typeError : String → PyErr
  | attributeError : String → PyErr
  | connectionError : String → PyErr
deriving DecidableEq

/-- A wire string as seen through the `json` module: `none` is text that is not
valid JSON, `some v` is text whose parse is `v`. -/
abbrev Text := Option JSON

/-- `json.dumps` (external library): emits the text whose parse is `v`. -/
def json.dumps (v : JSON) : Text := some v

/-- `json.loads` (external library): raises `json.JSONDecodeError` on text that
is not valid JSON, otherwise returns the parsed value. -/
def json.loads : Text → Except PyErr JSON
  | none => .error .jsonDecodeError
  | some v => .ok v

/-- The keys of a Python keyword-argument mapping (insertion ordered). -/
def keys (kwargs : List (String × JSON)) : List String := kwargs.map Prod.fst

/-- `d.get(k, dflt)` on a Python dict parsed from JSON. -/
def pyGet (fields : List (String × JSON)) (k : String) (dflt : JSON) : JSON :=
  (List.lookup k fields).getD dflt

/-- `**v` argument unpacking at a call site: `v` must be a mapping, else
CPython raises `TypeError`. -/
def starstar : JSON → Except PyErr (List (String × JSON))
  | .obj fs => .ok fs
  | _ => .error (.typeError "argument after ** must be a mapping")

/-- CPython message of the `TypeError` raised when a keyword argument collides
with an already-bound parameter. -/
def multipleValues : PyErr := .typeError "got multiple values for argument"

/-- `BaseCommand` (`commands.py`): the wire-level command shape, whose
`__dict__` is exactly `flag` then `args`.  `ClientCommand` and `ServerCommand`
subclass it changing only `__repr__`, so they share this representation. -/
structure BaseCommand where
  flag : JSON
  args : List (String × JSON)

/-- `ClientCommand` adds nothing to `BaseCommand` but a `__repr__`. -/
abbrev ClientCommand := BaseCommand

/-- `ServerCommand` adds nothing to `BaseCommand` but a `__repr__`. -/
abbrev ServerCommand := BaseCommand

/-- The call `cls(flag, **kwargs)` for `BaseCommand.__init__(self, flag,
**kwargs)`: CPython raises `TypeError` when a keyword collides with the named
parameters `self` or `flag`; otherwise it sets `self.flag = flag` and
`self.args = kwargs`. -/
def BaseCommand.init (flag : JSON) (kwargs : List (String × JSON)) :
    Except PyErr BaseCommand :=
  if "self" ∈ keys kwargs ∨ "flag" ∈ keys kwargs then .error multipleValues
  else .ok ⟨flag, kwargs⟩

/-- `BaseCommand.serialize`: `json.dumps(self.__dict__)`, the object's entire
attribute set in insertion order (`flag`, then `args`). -/
def BaseCommand.serialize (c : BaseCommand) : Text :=
  json.dumps (.obj [("flag", c.flag), ("args", .obj c.args)])

/-- `BaseCommand.deserialize(serial)`: `data = json.loads(serial); return
cls(data.get("flag"), **data.get("args", {}))` with `cls` a base class.
`data.get` on a non-dict raises `AttributeError`. -/
def BaseCommand.deserialize (serial : Text) : Except PyErr BaseCommand :=
  match json.loads serial with
  | .error e => .error e
  | .ok (.obj fields) =>
      match starstar (pyGet fields "args" (.obj [])) with
      | .error e => .error e
      | .ok kwargs => BaseCommand.init (pyGet fields "flag" .null) kwargs
  | .ok _ => .error (.attributeError "object has no attribute get")

/-- `ClientCommand.serialize`, inherited unchanged from `BaseCommand`. -/
def ClientCommand.serialize (c : ClientCommand) : Text := BaseCommand.serialize c

/-- `ServerCommand.serialize`, inherited unchanged from `BaseCommand`. -/
def ServerCommand.serialize (c : ServerCommand) : Text := BaseCommand.serialize c

/-- `ClientCommand.deserialize`: the inherited classmethod with
`cls = ClientCommand`, whose constructor is `BaseCommand.__init__`. -/
def ClientCommand.deserialize (serial : Text) : Except PyErr ClientCommand :=
  BaseCommand.deserialize serial

/-- `ServerCommand.deserialize`: the inherited classmethod with
`cls = ServerCommand`, whose constructor is `BaseCommand.__init__`. -/
def ServerCommand.deserialize (serial : Text) : Except PyErr ServerCommand :=
  BaseCommand.deserialize serial

/-- Modelled from the spec: the Peer Handle (`ClientBase`, defined in
`pygame_multiplayer/models`, which is not among the given sources).  The spec
requires of it only construction from an accepted connection and
equality/identity usable for roster membership, so a peer is modelled as an
opaque identity. -/
structure ClientBase where
  id : Nat
deriving DecidableEq

/-- A value that may sit in the `client` attribute of a server-side command:
either an in-process Peer Handle, or (after deserialization) a plain JSON
value, since Python never checks the type. -/
inductive PyObj where
  | peer : ClientBase → PyObj
  | jval : JSON → PyObj

/-- `ServerSideClientCommand`: `flag`/`args` via `super().__init__` plus the
`client` attribute. -/
structure ServerSideClientCommand where
  flag : JSON
  client : PyObj
  args : List (String × JSON)

/-- `ServerSideServerCommand`: `flag`/`args` via `super().__init__` plus the
`client` attribute. -/
structure ServerSideServerCommand where
  flag : JSON
  client : PyObj
  args : List (String × JSON)

/-- The call `cls(flag, client, **kwargs)` for `ServerSideClientCommand.__init__
(self, flag, client, **kwargs)`: a keyword colliding with `self`, `flag` or
`client` raises `TypeError`; otherwise all attributes are set. -/
def ServerSideClientCommand.init (flag : JSON) (client : PyObj)
    (kwargs : List (String × JSON)) : Except PyErr ServerSideClientCommand :=
  if "self" ∈ keys kwargs ∨ "flag" ∈ keys kwargs ∨ "client" ∈ keys kwargs then
    .error multipleValues
  else .ok ⟨flag, client, kwargs⟩

/-- The call `cls(flag, client, **kwargs)` for
`ServerSideServerCommand.__init__`, same binding as the client variant. -/
def ServerSideServerCommand.init (flag : JSON) (client : PyObj)
    (kwargs : List (String × JSON)) : Except PyErr ServerSideServerCommand :=
  if "self" ∈ keys kwargs ∨ "flag" ∈ keys kwargs ∨ "client" ∈ keys kwargs then
    .error multipleValues
  else .ok ⟨flag, client, kwargs⟩

/-- `ServerSideClientCommand.from_client_cmd(cmd, client)`:
`cls(cmd.flag, client, **cmd.args)`. -/
def ServerSideClientCommand.from_client_cmd (cmd : BaseCommand)
    (client : ClientBase) : Except PyErr ServerSideClientCommand :=
  ServerSideClientCommand.init cmd.flag (.peer client) cmd.args

/-- `ServerSideServerCommand.to_client_cmd`: `ServerCommand(self.flag,
**self.args)`. -/
def ServerSideServerCommand.to_client_cmd (c : ServerSideServerCommand) :
    Except PyErr ServerCommand :=
  BaseCommand.init c.flag c.args

/-- The call `cls(flagv, **kwargs)` when `cls` is a server-side variant, as
performed by the inherited `deserialize`: `flag` binds positionally, `client`
must come from the keywords (else `TypeError`: missing required positional
argument), a keyword colliding with `self` or `flag` raises `TypeError`, and
the remaining keywords become `self.args`. -/
def serverSideCallOnePositional (flagv : JSON) (kwargs : List (String × JSON)) :
    Except PyErr (JSON × PyObj × List (String × JSON)) :=
  if "self" ∈ keys kwargs ∨ "flag" ∈ keys kwargs then .error multipleValues
  else
    match List.lookup "client" kwargs with
    | none => .error (.typeError "missing 1 required positional argument: client")
    | some cv => .ok (flagv, .jval cv, kwargs.filter (fun kv => kv.1 ≠ "client"))

/-- `ServerSideClientCommand.deserialize`: the inherited classmethod with
`cls = ServerSideClientCommand`. -/
def ServerSideClientCommand.deserialize (serial : Text) :
    Except PyErr ServerSideClientCommand :=
  match json.loads serial with
  | .error e => .error e
  | .ok (.obj fields) =>
      match starstar (pyGet fields "args" (.obj [])) with
      | .error e => .error e
      | .ok kwargs =>
          match serverSideCallOnePositional (pyGet fields "flag" .null) kwargs with
          | .error e => .error e
          | .ok r => .ok ⟨r.1, r.2.1, r.2.2⟩
  | .ok _ => .error (.attributeError "object has no attribute get")

/-- `ServerSideServerCommand.deserialize`: the inherited classmethod with
`cls = ServerSideServerCommand`. -/
def ServerSideServerCommand.deserialize (serial : Text) :
    Except PyErr ServerSideServerCommand :=
  match json.loads serial with
  | .error e => .error e
  | .ok (.obj fields) =>
      match starstar (pyGet fields "args" (.obj [])) with
      | .error e => .error e
      | .ok kwargs =>
          match serverSideCallOnePositional (pyGet fields "flag" .null) kwargs with
          | .error e => .error e
          | .ok r => .ok ⟨r.1, r.2.1, r.2.2⟩
  | .ok _ => .error (.attributeError "object has no attribute get")

/-- The observable state of `NetworkServerBase` (`server.py`): the `_binded`
flag, the bound address, and the roster `clients`.  The OS socket `self.conn`
is external and carries no state the claims depend on. -/
structure NetworkServerBase where
  binded : Bool
  addr : Option (String × Int)
  clients : List ClientBase
deriving DecidableEq

/-- `NetworkServerBase.is_binded`. -/
def NetworkServerBase.is_binded (s : NetworkServerBase) : Bool := s.binded

/-- `NetworkServerBase.bind(host, port)`: records the address, performs the
external `socket.bind`, and sets `_binded` (the returned socket object is
external and dropped here). -/
def NetworkServerBase.bind (s : NetworkServerBase) (host : String) (port : Int) :
    NetworkServerBase :=
  { s with addr := some (host, port), binded := true }

/-- Python truthiness of a string: the empty string is falsy. -/
def pyTruthyStr (h : String) : Bool := h ≠ ""

/-- Python truthiness of an integer: zero is falsy. -/
def pyTruthyInt (p : Int) : Bool := p ≠ 0

/-- `NetworkServerBase.__init__(host, port, auto_bind)`: fresh unbound state
with empty roster; then `if auto_bind: if host and port: self.bind(host, port)`
— note the truthiness test, not a `None` test. -/
def NetworkServerBase.init (host : Option String) (port : Option Int)
    (auto_bind : Bool) : NetworkServerBase :=
  let s : NetworkServerBase := { binded := false, addr := none, clients := [] }
  if auto_bind then
    match host, port with
    | some h, some p => if pyTruthyStr h && pyTruthyInt p then s.bind h p else s
    | _, _ => s
  else s

/-- The loop `while len(self.clients) < amount: self.clients.append(
ClientBase.from_accept(*self.conn.accept()))` of `_accept`.  `incoming k` is
the Peer Handle wrapped from the k-th connection this call accepts; the OS
`accept` is external and modelled as an inexhaustible stream. -/
def acceptLoop (incoming : Nat → ClientBase) (amount : Int) (k : Nat)
    (clients : List ClientBase) : List ClientBase :=
  if (clients.length : Int) < amount then
    acceptLoop incoming amount (k + 1) (clients ++ [incoming k])
  else clients
termination_by (amount - clients.length).toNat
decreasing_by simp [List.length_append]; omega

/-- `NetworkServerBase._accept(amount)` (Python default `amount = 1`): raises
`ConnectionError("Not binded to any addr")` when not bound, else performs the
external `listen` and runs the accept loop. -/
def NetworkServerBase.accept_ (s : NetworkServerBase) (incoming : Nat → ClientBase)
    (amount : Int) : Except PyErr NetworkServerBase :=
  if ¬ s.is_binded then .error (.connectionError "Not binded to any addr")
  else .ok { s with clients := acceptLoop incoming amount 0 s.clients }

/-- `NetworkServerBase._recv(size, client)`: guarded by `is_binded` and roster
membership, then returns the external `client.conn.recv(size)`, modelled by
the oracle `wire`. -/
def NetworkServerBase.recv_ (s : NetworkServerBase) (size : Int)
    (client : ClientBase) (wire : ClientBase → Int → List Nat) :
    Except PyErr (List Nat) :=
  if ¬ s.is_binded then .error (.connectionError "Not binded to any addr")
  else if client ∉ s.clients then .error (.connectionError "Client not connected")
  else .ok (wire client size)

/-- `NetworkServerBase._send(data, client)`: same guards, then the external
`client.conn.send(data)`; the transport state is untouched. -/
def NetworkServerBase.send_ (s : NetworkServerBase) (data : List Nat)
    (client : ClientBase) : Except PyErr Unit :=
  if ¬ s.is_binded then .error (.connectionError "Not binded to any addr")
  else if client ∉ s.clients then .error (.connectionError "Client not connected")
  else .ok ()

/-! Helper lemmas shared by several claim theorems. -/

/-- A key absent from the key list of a kwargs mapping is not found by
`List.lookup`. -/
theorem lookup_eq_none_of_not_mem {k : String} {l : List (String × JSON)}
    (h : k ∉ keys l) : List.lookup k l = none := by
  induction l with
  | nil => rfl
  | cons kv tl ih =>
      obtain ⟨k', v⟩ := kv
      simp only [keys, List.map_cons, List.mem_cons, not_or] at h
      have htl : List.lookup k tl = none := ih (by simpa [keys] using h.2)
      simp [List.lookup, beq_false_of_ne h.1, htl]

/-- `BaseCommand.init` succeeds exactly when no keyword collides with `self`
or `flag`. -/
theorem BaseCommand.init_ok_base {flag : JSON} {kwargs : List (String × JSON)}
    (hs : "self" ∉ keys kwargs) (hf : "flag" ∉ keys kwargs) :
    BaseCommand.init flag kwargs = .ok ⟨flag, kwargs⟩ := by
  simp [BaseCommand.init, hs, hf]

/-- `ServerSideClientCommand.init` succeeds exactly when no keyword collides
with `self`, `flag` or `client`. -/
theorem ServerSideClientCommand.init_ok_server_side {flag : JSON} {client : PyObj}
    {kwargs : List (String × JSON)} (hs : "self" ∉ keys kwargs)
    (hf : "flag" ∉ keys kwargs) (hc : "client" ∉ keys kwargs) :
    ServerSideClientCommand.init flag client kwargs = .ok ⟨flag, client, kwargs⟩ := by
  simp [ServerSideClientCommand.init, hs, hf, hc]

/-- Deserializing the serialization of a base command reconstructs it, as long
as its kwargs collide with no initializer parameter. -/
theorem deserialize_serialize (f : JSON) (a : List (String × JSON))
    (hs : "self" ∉ keys a) (hf : "flag" ∉ keys a) :
    BaseCommand.deserialize (BaseCommand.serialize ⟨f, a⟩) = .ok ⟨f, a⟩ := by
  show BaseCommand.init f a = .ok ⟨f, a⟩
  exact BaseCommand.init_ok_base hs hf

/-- C1 (as stated) fails when the args mapping itself uses the key `"flag"`:
`Construct` then raises `TypeError` (keyword `flag` collides with the
positional `flag` parameter), so the pipeline yields an error rather than a
Command with the original flag and args. -/
theorem C1_counterexample :
    (BaseCommand.init (JSON.num 0) [("flag", JSON.num 1)]).bind
        (fun c => ClientCommand.deserialize (ClientCommand.serialize c))
      = .error multipleValues := rfl

/-- C1 (amended): for every integer flag and every args mapping whose keys
avoid the initializer parameter names `"self"` and `"flag"`,
`Deserialize(Serialize(Construct(flag, args)))` yields a Command with the
original flag and args, for both `ClientCommand` and `ServerCommand`. -/
theorem C1_round_trip (flag : Int) (args : List (String × JSON))
    (hs : "self" ∉ keys args) (hf : "flag" ∉ keys args) :
    BaseCommand.init (JSON.num flag) args = .ok ⟨JSON.num flag, args⟩ ∧
    ClientCommand.deserialize (ClientCommand.serialize ⟨JSON.num flag, args⟩)
      = .ok ⟨JSON.num flag, args⟩ ∧
    ServerCommand.deserialize (ServerCommand.serialize ⟨JSON.num flag, args⟩)
      = .ok ⟨JSON.num flag, args⟩ :=
  ⟨BaseCommand.init_ok_base hs hf, deserialize_serialize _ _ hs hf,
    deserialize_serialize _ _ hs hf⟩

/-- C1 witness: the round trip at flag 7, args `{"x": 1}`. -/
theorem C1_round_trip_witness :
    BaseCommand.init (JSON.num 7) [("x", JSON.num 1)]
        = .ok ⟨JSON.num 7, [("x", JSON.num 1)]⟩ ∧
    ClientCommand.deserialize (ClientCommand.serialize ⟨JSON.num 7, [("x", JSON.num 1)]⟩)
        = .ok ⟨JSON.num 7, [("x", JSON.num 1)]⟩ ∧
    ServerCommand.deserialize (ServerCommand.serialize ⟨JSON.num 7, [("x", JSON.num 1)]⟩)
        = .ok ⟨JSON.num 7, [("x", JSON.num 1)]⟩ :=
  C1_round_trip 7 [("x", JSON.num 1)] (by decide) (by decide)

/-- C2 (as stated) fails on its missing-`flag` part: the text `{}` is valid
JSON without a `flag` field, yet `deserialize` succeeds, silently producing a
command whose flag is `None` — `data.get("flag")` defaults instead of
raising. -/
theorem C2_counterexample :
    BaseCommand.deserialize (some (JSON.obj [])) = .ok ⟨JSON.null, []⟩ := rfl

/-- C2 (amended): `Deserialize` fails with a decode error when the text is not
valid JSON; an absent `flag` field is NOT an error — the flag silently
defaults to `None`/null; an absent `args` field silently defaults to the empty
mapping. -/
theorem C2_decode_behavior (a : List (String × JSON)) (v : JSON)
    (hs : "self" ∉ keys a) (hf : "flag" ∉ keys a) :
    BaseCommand.deserialize none = .error PyErr.jsonDecodeError ∧
    BaseCommand.deserialize (some (JSON.obj [("args", JSON.obj a)]))
      = .ok ⟨JSON.null, a⟩ ∧
    BaseCommand.deserialize (some (JSON.obj [("flag", v)])) = .ok ⟨v, []⟩ := by
  refine ⟨rfl, ?_, ?_⟩
  · show BaseCommand.init JSON.null a = .ok ⟨JSON.null, a⟩
    exact BaseCommand.init_ok_base hs hf
  · rfl

/-- C2 witness: the amended behavior at args `{"x": 1}` and flag value 5. -/
theorem C2_decode_behavior_witness :
    BaseCommand.deserialize none = .error PyErr.jsonDecodeError ∧
    BaseCommand.deserialize (some (JSON.obj [("args", JSON.obj [("x", JSON.num 1)])]))
      = .ok ⟨JSON.null, [("x", JSON.num 1)]⟩ ∧
    BaseCommand.deserialize (some (JSON.obj [("flag", JSON.num 5)]))
      = .ok ⟨JSON.num 5, []⟩ :=
  C2_decode_behavior [("x", JSON.num 1)] (JSON.num 5) (by decide) (by decide)

/-- C6 (as stated) fails when the command's args mapping uses the key
`"client"`: the Python command `ClientCommand(1, client=None)` is
constructible, but `from_client_cmd` on it raises `TypeError` (keyword
`client` collides with the positional `client` parameter) instead of
producing a tagged command. -/
theorem C6_counterexample :
    ServerSideClientCommand.from_client_cmd ⟨JSON.num 1, [("client", JSON.null)]⟩ ⟨0⟩
      = .error multipleValues := rfl

/-- C6 (amended): for every Command whose args mapping does not use the key
`"client"` (nor the initializer names `"self"`/`"flag"`, which no constructed
Command carries) and every peer, `from_client_cmd` produces a
`ServerSideClientCommand` with the same flag, the same args, and a `client`
attribute that is exactly the peer passed in. -/
theorem C6_from_client_cmd (f : JSON) (a : List (String × JSON)) (p : ClientBase)
    (hs : "self" ∉ keys a) (hf : "flag" ∉ keys a) (hc : "client" ∉ keys a) :
    ServerSideClientCommand.from_client_cmd ⟨f, a⟩ p
      = .ok ⟨f, PyObj.peer p, a⟩ :=
  ServerSideClientCommand.init_ok_server_side hs hf hc

/-- C6 witness: the spec's own example, flag 7, args `{"x": 1}`. -/
theorem C6_from_client_cmd_witness :
    ServerSideClientCommand.from_client_cmd ⟨JSON.num 7, [("x", JSON.num 1)]⟩ ⟨0⟩
      = .ok ⟨JSON.num 7, PyObj.peer ⟨0⟩, [("x", JSON.num 1)]⟩ :=
  C6_from_client_cmd (JSON.num 7) [("x", JSON.num 1)] ⟨0⟩
    (by decide) (by decide) (by decide)

/-- C7: every `ServerSideServerCommand` the constructor actually produces
projects under `to_client_cmd` to a `ServerCommand` with the same flag and
args; the `ServerCommand` type carries no client attribute, and its
serialization is exactly the object with the `flag` and `args` keys. -/
theorem C7_to_client_cmd (f : JSON) (p : PyObj) (a : List (String × JSON))
    (c : ServerSideServerCommand)
    (h : ServerSideServerCommand.init f p a = .ok c) :
    c.to_client_cmd = .ok ⟨f, a⟩ ∧
    ServerCommand.serialize ⟨f, a⟩
      = json.dumps (JSON.obj [("flag", f), ("args", JSON.obj a)]) := by
  unfold ServerSideServerCommand.init at h
  by_cases hcoll : "self" ∈ keys a ∨ "flag" ∈ keys a ∨ "client" ∈ keys a
  · rw [if_pos hcoll] at h
    cases h
  · rw [if_neg hcoll] at h
    injection h with h
    subst h
    push_neg at hcoll
    exact ⟨BaseCommand.init_ok_base hcoll.1 hcoll.2.1, rfl⟩

/-- C7 witness: the spec's own example, `ServerSideServerCommand(flag=3,
peer=P, args={"y": 2})`. -/
theorem C7_to_client_cmd_witness :
    ServerSideServerCommand.to_client_cmd
        ⟨JSON.num 3, PyObj.peer ⟨0⟩, [("y", JSON.num 2)]⟩
      = .ok ⟨JSON.num 3, [("y", JSON.num 2)]⟩ ∧
    ServerCommand.serialize ⟨JSON.num 3, [("y", JSON.num 2)]⟩
      = json.dumps (JSON.obj [("flag", JSON.num 3),
          ("args", JSON.obj [("y", JSON.num 2)])]) :=
  C7_to_client_cmd (JSON.num 3) (PyObj.peer ⟨0⟩) [("y", JSON.num 2)]
    ⟨JSON.num 3, PyObj.peer ⟨0⟩, [("y", JSON.num 2)]⟩ rfl

/-- C9: on both server-side variants the inherited `deserialize` fails for any
valid-JSON object text whose args mapping (defaulted to empty when absent)
lacks a `"client"` key — the constructor's required `client` parameter is
never supplied positionally, so the call raises `TypeError`. -/
theorem C9_serverside_deserialize (fields a : List (String × JSON))
    (ha : pyGet fields "args" (JSON.obj []) = JSON.obj a)
    (hc : "client" ∉ keys a) :
    (∃ e, ServerSideClientCommand.deserialize (some (JSON.obj fields)) = .error e) ∧
    (∃ e, ServerSideServerCommand.deserialize (some (JSON.obj fields)) = .error e) := by
  obtain ⟨e, he⟩ :
      ∃ e, serverSideCallOnePositional (pyGet fields "flag" JSON.null) a = .error e := by
    unfold serverSideCallOnePositional
    by_cases hcoll : "self" ∈ keys a ∨ "flag" ∈ keys a
    · rw [if_pos hcoll]
      exact ⟨_, rfl⟩
    · rw [if_neg hcoll, lookup_eq_none_of_not_mem hc]
      exact ⟨_, rfl⟩
  constructor
  · refine ⟨e, ?_⟩
    unfold ServerSideClientCommand.deserialize
    simp [json.loads, ha, starstar, he]
  · refine ⟨e, ?_⟩
    unfold ServerSideServerCommand.deserialize
    simp [json.loads, ha, starstar, he]

/-- C9 witness: the text `{"flag": 1}` (args defaulted to the empty mapping,
which has no `"client"` key) makes both server-side deserializations fail. -/
theorem C9_serverside_deserialize_witness :
    pyGet [("flag", JSON.num 1)] "args" (JSON.obj []) = JSON.obj [] ∧
    ((∃ e, ServerSideClientCommand.deserialize
        (some (JSON.obj [("flag", JSON.num 1)])) = .error e) ∧
     (∃ e, ServerSideServerCommand.deserialize
        (some (JSON.obj [("flag", JSON.num 1)])) = .error e)) :=
  ⟨rfl, C9_serverside_deserialize [("flag", JSON.num 1)] [] rfl (by decide)⟩

/-- C10: an args mapping containing the key `"flag"` makes `Construct` fail
with the keyword-collision `TypeError`, and one containing the key `"client"`
makes `from_client_cmd` and both server-side constructors fail the same way,
so these key names are unusable despite the free-form-args contract. -/
theorem C10_argument_collisions (f : JSON) (a b : List (String × JSON))
    (p : ClientBase) (q : PyObj)
    (ha : "flag" ∈ keys a) (hb : "client" ∈ keys b) :
    BaseCommand.init f a = .error multipleValues ∧
    ServerSideClientCommand.from_client_cmd ⟨f, b⟩ p = .error multipleValues ∧
    ServerSideClientCommand.init f q b = .error multipleValues ∧
    ServerSideServerCommand.init f q b = .error multipleValues := by
  refine ⟨?_, ?_, ?_, ?_⟩
  · simp [BaseCommand.init, ha]
  · show ServerSideClientCommand.init f (PyObj.peer p) b = .error multipleValues
    simp [ServerSideClientCommand.init, hb]
  · simp [ServerSideClientCommand.init, hb]
  · simp [ServerSideServerCommand.init, hb]

/-- C10 witness: args `{"flag": null}` and `{"client": null}`. -/
theorem C10_argument_collisions_witness :
    BaseCommand.init (JSON.num 1) [("flag", JSON.null)] = .error multipleValues ∧
    ServerSideClientCommand.from_client_cmd ⟨JSON.num 1, [("client", JSON.null)]⟩ ⟨1⟩
      = .error multipleValues ∧
    ServerSideClientCommand.init (JSON.num 1) (PyObj.peer ⟨1⟩) [("client", JSON.null)]
      = .error multipleValues ∧
    ServerSideServerCommand.init (JSON.num 1) (PyObj.peer ⟨1⟩) [("client", JSON.null)]
      = .error multipleValues :=
  C10_argument_collisions (JSON.num 1) [("flag", JSON.null)] [("client", JSON.null)]
    ⟨1⟩ (PyObj.peer ⟨1⟩) (by decide) (by decide)

/-- The accept loop does not run when the roster already has `amount` peers. -/
theorem acceptLoop_of_ge (incoming : Nat → ClientBase) (amount : Int) (k : Nat)
    (clients : List ClientBase) (h : amount ≤ (clients.length : Int)) :
    acceptLoop incoming amount k clients = clients := by
  unfold acceptLoop
  rw [if_neg (by omega)]

/-- The accept loop only appends, and stops exactly when the roster size
reaches `amount` (or at once when it already had at least `amount`). -/
theorem acceptLoop_spec (incoming : Nat → ClientBase) (amount : Int) :
    ∀ n clients k, (amount - (clients.length : Int)).toNat = n →
      (∃ t, acceptLoop incoming amount k clients = clients ++ t) ∧
      ((acceptLoop incoming amount k clients).length : Int)
        = max (clients.length : Int) amount := by
  intro n
  induction n using Nat.strong_induction_on with
  | _ n ih =>
    intro clients k hn
    unfold acceptLoop
    split
    · rename_i hlt
      have hrec := ih ((amount - ((clients ++ [incoming k]).length : Int)).toNat)
        (by simp; omega) (clients ++ [incoming k]) (k + 1) rfl
      obtain ⟨⟨t, ht⟩, hlen⟩ := hrec
      refine ⟨⟨incoming k :: t, ?_⟩, ?_⟩
      · rw [ht]
        simp
      · rw [hlen]
        simp
        omega
    · rename_i hge
      refine ⟨⟨[], by simp⟩, ?_⟩
      simp only [not_lt] at hge
      omega

/-- C3: on a bound transport, `_accept(amount)` succeeds, only ever appends to
the roster, stops once the total roster size reaches `amount`, and — when the
roster already holds at least `amount` peers — returns at once with the state
unchanged (blocking is external: the OS `accept` is modelled by the `incoming`
stream). -/
theorem C3_accept_roster (s : NetworkServerBase) (incoming : Nat → ClientBase)
    (amount : Int) (hb : s.is_binded = true) :
    ∃ s' : NetworkServerBase, s.accept_ incoming amount = .ok s' ∧
      s'.binded = s.binded ∧ s'.addr = s.addr ∧
      (∃ t, s'.clients = s.clients ++ t) ∧
      ((s'.clients.length : Int) = max (s.clients.length : Int) amount) ∧
      (amount ≤ (s.clients.length : Int) → s' = s) := by
  refine ⟨{ s with clients := acceptLoop incoming amount 0 s.clients }, ?_, rfl, rfl, ?_, ?_, ?_⟩
  · unfold NetworkServerBase.accept_
    rw [if_neg (by simp [hb])]
  · exact (acceptLoop_spec incoming amount _ s.clients 0 rfl).1
  · exact (acceptLoop_spec incoming amount _ s.clients 0 rfl).2
  · intro hge
    rw [acceptLoop_of_ge incoming amount 0 s.clients hge]

/-- C3 witness: a bound transport with 2 peers in its roster and `Accept(2)`
returns with the roster unchanged. -/
theorem C3_accept_roster_witness :
    ∃ s' : NetworkServerBase,
      NetworkServerBase.accept_ ⟨true, none, [⟨0⟩, ⟨1⟩]⟩ (fun n => ⟨100 + n⟩) 2
        = .ok s' ∧
      s'.binded = true ∧ s'.addr = none ∧
      (∃ t, s'.clients = [⟨0⟩, ⟨1⟩] ++ t) ∧
      ((s'.clients.length : Int) = max ((2 : Nat) : Int) 2) ∧
      ((2 : Int) ≤ ((2 : Nat) : Int) → s' = ⟨true, none, [⟨0⟩, ⟨1⟩]⟩) :=
  C3_accept_roster ⟨true, none, [⟨0⟩, ⟨1⟩]⟩ (fun n => ⟨100 + n⟩) 2 rfl

/-- C4: on an unbound transport, `_accept`, `_recv` and `_send` all fail with
`ConnectionError("Not binded to any addr")`, for any arguments; the error is
raised before anything else happens, so no state is touched. -/
theorem C4_unbound_operations (s : NetworkServerBase) (incoming : Nat → ClientBase)
    (amount size : Int) (client : ClientBase) (data : List Nat)
    (wire : ClientBase → Int → List Nat) (hb : s.is_binded = false) :
    s.accept_ incoming amount = .error (.connectionError "Not binded to any addr") ∧
    s.recv_ size client wire = .error (.connectionError "Not binded to any addr") ∧
    s.send_ data client = .error (.connectionError "Not binded to any addr") := by
  refine ⟨?_, ?_, ?_⟩
  · unfold NetworkServerBase.accept_
    rw [if_pos (by simp [hb])]
  · unfold NetworkServerBase.recv_
    rw [if_pos (by simp [hb])]
  · unfold NetworkServerBase.send_
    rw [if_pos (by simp [hb])]

/-- C4 witness: a freshly constructed unbound transport rejects all three
operations. -/
theorem C4_unbound_operations_witness :
    NetworkServerBase.accept_ ⟨false, none, []⟩ (fun n => ⟨n⟩) 1
      = .error (.connectionError "Not binded to any addr") ∧
    NetworkServerBase.recv_ ⟨false, none, []⟩ 1024 ⟨0⟩ (fun _ _ => [])
      = .error (.connectionError "Not binded to any addr") ∧
    NetworkServerBase.send_ ⟨false, none, []⟩ [1, 2, 3] ⟨0⟩
      = .error (.connectionError "Not binded to any addr") :=
  C4_unbound_operations ⟨false, none, []⟩ (fun n => ⟨n⟩) 1 1024 ⟨0⟩ [1, 2, 3]
    (fun _ _ => []) rfl

/-- C5: on a bound transport, `_recv` and `_send` with a peer that is not in
the roster fail with `ConnectionError("Client not connected")` — whatever else
the roster holds — and that error value differs from the not-bound error, so a
caller can distinguish the two conditions. -/
theorem C5_unknown_peer (s : NetworkServerBase) (size : Int) (client : ClientBase)
    (data : List Nat) (wire : ClientBase → Int → List Nat)
    (hb : s.is_binded = true) (hm : client ∉ s.clients) :
    s.recv_ size client wire = .error (.connectionError "Client not connected") ∧
    s.send_ data client = .error (.connectionError "Client not connected") ∧
    PyErr.connectionError "Client not connected"
      ≠ PyErr.connectionError "Not binded to any addr" := by
  refine ⟨?_, ?_, by decide⟩
  · unfold NetworkServerBase.recv_
    rw [if_neg (by simp [hb]), if_pos hm]
  · unfold NetworkServerBase.send_
    rw [if_neg (by simp [hb]), if_pos hm]

/-- C5 witness: a bound transport whose roster holds peer 1 rejects peer 2. -/
theorem C5_unknown_peer_witness :
    NetworkServerBase.recv_ ⟨true, some ("localhost", 5000), [⟨1⟩]⟩ 1024 ⟨2⟩
        (fun _ _ => []) = .error (.connectionError "Client not connected") ∧
    NetworkServerBase.send_ ⟨true, some ("localhost", 5000), [⟨1⟩]⟩ [1] ⟨2⟩
      = .error (.connectionError "Client not connected") ∧
    PyErr.connectionError "Client not connected"
      ≠ PyErr.connectionError "Not binded to any addr" :=
  C5_unknown_peer ⟨true, some ("localhost", 5000), [⟨1⟩]⟩ 1024 ⟨2⟩ [1]
    (fun _ _ => []) rfl (by decide)

/-- C8 (as stated) fails for a given-but-falsy host: with `host = ""` (a
perfectly bindable address meaning INADDR_ANY), `port = 8080` and
`auto_bind = True`, the constructor does NOT bind — `if host and port:` tests
truthiness, and the empty string is falsy. -/
theorem C8_counterexample :
    (NetworkServerBase.init (some "") (some 8080) true).is_binded = false := rfl

/-- C8 (amended): construction always yields an empty roster; the transport is
unbound when host/port are absent or `autoBind` is false; and when host and
port are both given and truthy (non-empty host, nonzero port) with `autoBind`
true, it is bound to `(host, port)` immediately. -/
theorem C8_construct (ho : Option String) (po : Option Int) (ab : Bool)
    (host : String) (port : Int) (hh : host ≠ "") (hp : port ≠ 0) :
    (NetworkServerBase.init ho po ab).clients = [] ∧
    (NetworkServerBase.init none none ab).is_binded = false ∧
    (NetworkServerBase.init (some host) (some port) false).is_binded = false ∧
    NetworkServerBase.init (some host) (some port) true
      = ⟨true, some (host, port), []⟩ := by
  refine ⟨?_, ?_, rfl, ?_⟩
  · unfold NetworkServerBase.init
    split
    · cases ho with
      | none => rfl
      | some h =>
          cases po with
          | none => rfl
          | some p =>
              simp only [NetworkServerBase.bind]
              split <;> rfl
    · rfl
  · cases ab <;> rfl
  · have ht : (pyTruthyStr host && pyTruthyInt port) = true := by
      simp [pyTruthyStr, pyTruthyInt, hh, hp]
    unfold NetworkServerBase.init
    simp [ht, NetworkServerBase.bind]

/-- C8 witness: constructed with nothing it is unbound and empty; with
truthy host `"localhost"` and port 5000 plus autoBind it is bound there. -/
theorem C8_construct_witness :
    (NetworkServerBase.init none (some 1) false).clients = [] ∧
    (NetworkServerBase.init none none false).is_binded = false ∧
    (NetworkServerBase.init (some "localhost") (some 5000) false).is_binded = false ∧
    NetworkServerBase.init (some "localhost") (some 5000) true
      = ⟨true, some ("localhost", 5000), []⟩ :=
  C8_construct none (some 1) false "localhost" 5000 (by decide) (by decide)

end PygameMP
